import Mathlib

/-!
Shallow embedding of the diabetes-screening pipeline
(repository `dzikrimr/nail_tongue_diabet_detection`).

Sources embedded:
- `src/app/models.py`    : `RiskLevel`, `DetectionType`, `SingleDetectionResult`,
                           `DiabetesAnalysisResponse`.
- `src/app/utils.py`     : `LIDAH_RISK_FACTORS`, `KUKU_RISK_FACTORS`,
                           `get_risk_factors`, `calculate_risk_level`,
                           `get_recommendation`.
- `src/app/predictor.py` : the score-interpretation part of `predict_lidah` and
                           `predict_kuku` (`interpret_lidah` / `interpret_kuku`
                           below), and `predict_both`.
- `src/app/main.py`      : the `/predict` handler `predict_flexible`.

Modelling conventions:
- Raw model scores (Python floats in `[0,1]` from a sigmoid output) are
  rationals `ℚ`.
- `random.uniform(a, b)` is modelled as `uniform a b u = a + u * (b - a)`
  where `u : ℚ` is the draw of the underlying unit-interval random source;
  theorems quantify over every `u` with `0 ≤ u ≤ 1`.
- `random.sample(factors, k)` is modelled as an abstract function
  `sample : List String → Nat → List String`; theorems assume only the
  contract of `random.sample` that the claim needs (result length `k` when
  `k` does not exceed the population, results drawn from the population).
- Image bytes are `List Nat`; a modality argument of `predict_both` is an
  `Option (List Nat)` (`None` versus a bytes object).  Python truthiness of a
  bytes value (`if lidah_bytes:`) is `truthy` below: `None` and the empty
  bytes are falsy.
- `preprocess_image` plus the Keras `model.predict` call (PIL and TensorFlow,
  external collaborators per the spec) are modelled as opaque per-modality
  oracles `lidahScore`/`kukuScore : List Nat → Except PredError ℚ` collected
  in a `PredEnv`; Python exception propagation becomes the `Except` monad.
  The threshold / polarity / confidence logic that follows the model call in
  `predict_lidah` / `predict_kuku` (predictor.py lines 72-85 and 104-117) is
  embedded exactly, as `interpret_lidah` / `interpret_kuku`.
-/

/-- `RiskLevel` from `src/app/models.py` (rendah = Low, sedang = Moderate,
tinggi = High). -/
inductive RiskLevel where
  | RENDAH
  | SEDANG
  | TINGGI
deriving DecidableEq, Repr

/-- `DetectionType` from `src/app/models.py` (lidah = tongue, kuku = nail). -/
inductive DetectionType where
  | LIDAH
  | KUKU
deriving DecidableEq, Repr

/-- `SingleDetectionResult` from `src/app/models.py`. -/
structure SingleDetectionResult where
  detection_type : DetectionType
  is_diabetic : Bool
  confidence : ℚ
  label : String
deriving DecidableEq, Repr

/-- `DiabetesAnalysisResponse` from `src/app/models.py`. -/
structure DiabetesAnalysisResponse where
  risk_level : RiskLevel
  risk_percentage : ℚ
  lidah_result : Option SingleDetectionResult
  kuku_result : Option SingleDetectionResult
  risk_factors_identified : List String
  recommendation : String
deriving DecidableEq, Repr

/-- `LIDAH_RISK_FACTORS["diabet"]` from `src/app/utils.py` (6 phrases). -/
def LIDAH_RISK_FACTORS_diabet : List String :=
  ["Tongue coating thickness abnormality",
   "Color changes in tongue surface",
   "Texture pattern irregularities",
   "Surface moisture level changes",
   "Papillae distribution abnormality",
   "Edge scalloping patterns detected"]

/-- `KUKU_RISK_FACTORS["prediabet"]` from `src/app/utils.py` (9 phrases). -/
def KUKU_RISK_FACTORS_prediabet : List String :=
  ["Nail discoloration patterns",
   "Texture irregularities detected",
   "Surface changes observed",
   "Yellow nail syndrome indicators",
   "Nail bed color variations",
   "Onycholysis early signs",
   "Paronychia-like inflammation",
   "Brittle nail characteristics",
   "Growth pattern abnormalities"]

/-- The fixed list returned by `get_risk_factors` when no modality is
positive (`src/app/utils.py` lines 51-56). -/
def ALL_CLEAR_FACTORS : List String :=
  ["No significant abnormalities detected",
   "Normal appearance observed",
   "Healthy indicators present"]

/-- The fixed `general_factors` padding list inside `get_risk_factors`
(`src/app/utils.py` lines 63-67). -/
def GENERAL_FACTORS : List String :=
  ["Possible early stage indicators",
   "Minor variations from baseline",
   "Requires further monitoring"]

/-- The combined candidate list built by the two `factors.extend` calls at the
top of `get_risk_factors` (`src/app/utils.py` lines 42-48). -/
def candidate_factors (lidah_diabetic kuku_diabetic : Bool) : List String :=
  (if lidah_diabetic then LIDAH_RISK_FACTORS_diabet else []) ++
    (if kuku_diabetic then KUKU_RISK_FACTORS_prediabet else [])

/-- `get_risk_factors` from `src/app/utils.py`.  `sample` stands for
`random.sample`: `sample l k` is the draw of `k` elements from population `l`.
The source applies `factors[:3]` once at the end; here `.take 3` is applied at
the end of each branch, which is the same function. -/
def get_risk_factors (sample : List String → Nat → List String)
    (lidah_diabetic kuku_diabetic : Bool) : List String :=
  let factors := candidate_factors lidah_diabetic kuku_diabetic
  if factors.isEmpty then
    ALL_CLEAR_FACTORS
  else if factors.length > 3 then
    (sample factors 3).take 3
  else if factors.length < 3 then
    (factors ++ GENERAL_FACTORS.take (3 - factors.length)).take 3
  else
    factors.take 3

/-- `random.uniform(a, b)` as a function of the unit-interval draw `u`. -/
def uniform (a b u : ℚ) : ℚ := a + u * (b - a)

/-- `calculate_risk_level` from `src/app/utils.py`, with the unit-interval
draw `u` of the random source made explicit. -/
def calculate_risk_level (lidah_diabetic kuku_diabetic : Bool) (u : ℚ) :
    RiskLevel × ℚ :=
  if lidah_diabetic && kuku_diabetic then
    (RiskLevel.TINGGI, uniform 75 95 u)
  else if lidah_diabetic || kuku_diabetic then
    (RiskLevel.SEDANG, uniform 45 70 u)
  else
    (RiskLevel.RENDAH, uniform 5 25 u)

/-- `get_recommendation` from `src/app/utils.py`.  The source looks the tier
up in a 3-entry dict with a default for unknown keys; `RiskLevel` is a closed
enumeration, so the lookup is this total match (the default is unreachable). -/
def get_recommendation (risk_level : RiskLevel) : String :=
  match risk_level with
  | RiskLevel.TINGGI =>
      "High risk detected. We strongly recommend immediate consultation with a healthcare professional for comprehensive diabetes screening and blood glucose testing. Early intervention is crucial for better health outcomes."
  | RiskLevel.SEDANG =>
      "Moderate risk detected. Please schedule a medical check-up within the next few weeks. Consider monitoring your blood sugar levels and maintaining a healthy lifestyle with balanced diet and regular exercise."
  | RiskLevel.RENDAH =>
      "Low risk detected. Continue maintaining a healthy lifestyle with regular exercise, balanced nutrition, and adequate sleep. Regular health check-ups are still recommended for prevention and early detection."

/-- Error kinds raised inside `DiabetesPredictor`: `decodeError` for a
`PIL.Image.open` failure in `preprocess_image`, `inferenceError` for a failed
`model.predict` call. -/
inductive PredError where
  | decodeError
  | inferenceError
deriving DecidableEq, Repr

/-- The loaded predictor: `preprocess_image` composed with the wrapped Keras
model of each modality, i.e. the bytes-to-raw-score part of `predict_lidah`
and `predict_kuku` (`src/app/predictor.py` lines 66-70 and 98-102).  PIL and
TensorFlow are opaque external collaborators, so this map from image bytes to
the scalar `float(prediction[0][0])` is abstract; a raised Python exception is
the `Except.error` case. -/
structure PredEnv where
  lidahScore : List Nat → Except PredError ℚ
  kukuScore : List Nat → Except PredError ℚ

/-- The interpretation tail of `predict_lidah` (`src/app/predictor.py` lines
72-85): `is_diabetic = confidence_score < 0.5`, label and adjusted confidence
from it. -/
def interpret_lidah (confidence_score : ℚ) : SingleDetectionResult :=
  let is_diabetic : Bool := decide (confidence_score < 1/2)
  { detection_type := DetectionType.LIDAH
    is_diabetic := is_diabetic
    confidence := if is_diabetic then 1 - confidence_score else confidence_score
    label := if is_diabetic then "prediabet" else "non_diabet" }

/-- The interpretation tail of `predict_kuku` (`src/app/predictor.py` lines
104-117): `is_diabetic = confidence_score >= 0.5`, label and confidence from
it. -/
def interpret_kuku (confidence_score : ℚ) : SingleDetectionResult :=
  let is_diabetic : Bool := decide (1/2 ≤ confidence_score)
  { detection_type := DetectionType.KUKU
    is_diabetic := is_diabetic
    confidence := if is_diabetic then confidence_score else 1 - confidence_score
    label := if is_diabetic then "prediabet" else "non_diabet" }

/-- `predict_lidah` from `src/app/predictor.py`: bytes-to-score oracle, then
the interpretation tail; an exception from preprocessing or inference
propagates. -/
def predict_lidah (env : PredEnv) (image_bytes : List Nat) :
    Except PredError SingleDetectionResult :=
  match env.lidahScore image_bytes with
  | Except.error e => Except.error e
  | Except.ok s => Except.ok (interpret_lidah s)

/-- `predict_kuku` from `src/app/predictor.py`. -/
def predict_kuku (env : PredEnv) (image_bytes : List Nat) :
    Except PredError SingleDetectionResult :=
  match env.kukuScore image_bytes with
  | Except.error e => Except.error e
  | Except.ok s => Except.ok (interpret_kuku s)

/-- Python truthiness of an optional bytes value, as tested by
`if lidah_bytes:` in `predict_both`: `None` and empty bytes are falsy. -/
def truthy : Option (List Nat) → Bool
  | none => false
  | some b => !b.isEmpty

/-- One optional-modality step of `predict_both`: `result = None;
if image_bytes: result = predict(image_bytes)`, with a raised exception
propagating out of `predict_both`. -/
def predict_opt (p : List Nat → Except PredError SingleDetectionResult)
    (ob : Option (List Nat)) : Except PredError (Option SingleDetectionResult) :=
  if truthy ob then (p (ob.getD [])).map some else Except.ok none

/-- `predict_both` from `src/app/predictor.py`: runs the lidah step then the
kuku step, the first raised exception aborting the call. -/
def predict_both (env : PredEnv) (lidah_bytes kuku_bytes : Option (List Nat)) :
    Except PredError (Option SingleDetectionResult × Option SingleDetectionResult) :=
  match predict_opt (predict_lidah env) lidah_bytes with
  | Except.error e => Except.error e
  | Except.ok lidah_result =>
    match predict_opt (predict_kuku env) kuku_bytes with
    | Except.error e => Except.error e
    | Except.ok kuku_result => Except.ok (lidah_result, kuku_result)

/-- The two HTTP failure modes of the `/predict` handler in
`src/app/main.py`: status 400 when neither image is provided, status 500 when
prediction raises. -/
inductive HTTPError where
  | badRequest
  | internalError
deriving DecidableEq, Repr

/-- `lidah_result.is_diabetic if lidah_result else False` from
`predict_flexible` in `src/app/main.py`. -/
def verdict_bool : Option SingleDetectionResult → Bool
  | none => false
  | some r => r.is_diabetic

/-- The `/predict` handler `predict_flexible` from `src/app/main.py`
(transport plumbing aside): reject when both images are absent, run
`predict_both`, map any raised exception to HTTP 500, else aggregate risk,
select factors and assemble the response.  `sample` and `u` are the random
sources as in `get_risk_factors` and `calculate_risk_level`. -/
def predict_flexible (env : PredEnv) (sample : List String → Nat → List String)
    (u : ℚ) (lidah_image kuku_image : Option (List Nat)) :
    Except HTTPError DiabetesAnalysisResponse :=
  if lidah_image = none ∧ kuku_image = none then
    Except.error HTTPError.badRequest
  else
    match predict_both env lidah_image kuku_image with
    | Except.error _ => Except.error HTTPError.internalError
    | Except.ok (lidah_result, kuku_result) =>
      let ld := verdict_bool lidah_result
      let kd := verdict_bool kuku_result
      let rl := calculate_risk_level ld kd u
      Except.ok
        { risk_level := rl.1
          risk_percentage := rl.2
          lidah_result := lidah_result
          kuku_result := kuku_result
          risk_factors_identified := get_risk_factors sample ld kd
          recommendation := get_recommendation rl.1 }

/-- A predictor whose preprocessing fails on every input: the behaviour of the
loaded models on bytes that PIL cannot decode. -/
def failEnv : PredEnv :=
  { lidahScore := fun _ => Except.error PredError.decodeError
    kukuScore := fun _ => Except.error PredError.decodeError }

/-- Branch evaluation of `interpret_lidah` when the raw score is below the
0.5 cutoff. -/
lemma interpret_lidah_of_lt (q : ℚ) (h : q < 1/2) :
    interpret_lidah q = ⟨DetectionType.LIDAH, true, 1 - q, "prediabet"⟩ := by
  have h2 : q < 2⁻¹ := by rwa [← one_div]
  simp [interpret_lidah, h2, not_le.mpr h2]

/-- Branch evaluation of `interpret_lidah` when the raw score is at or above
the 0.5 cutoff. -/
lemma interpret_lidah_of_le (q : ℚ) (h : 1/2 ≤ q) :
    interpret_lidah q = ⟨DetectionType.LIDAH, false, q, "non_diabet"⟩ := by
  have h2 : (2⁻¹ : ℚ) ≤ q := by rwa [← one_div]
  simp [interpret_lidah, h2, not_lt.mpr h2]

/-- Branch evaluation of `interpret_kuku` when the raw score is below the
0.5 cutoff. -/
lemma interpret_kuku_of_lt (q : ℚ) (h : q < 1/2) :
    interpret_kuku q = ⟨DetectionType.KUKU, false, 1 - q, "non_diabet"⟩ := by
  have h2 : q < 2⁻¹ := by rwa [← one_div]
  simp [interpret_kuku, h2, not_le.mpr h2]

/-- Branch evaluation of `interpret_kuku` when the raw score is at or above
the 0.5 cutoff. -/
lemma interpret_kuku_of_le (q : ℚ) (h : 1/2 ≤ q) :
    interpret_kuku q = ⟨DetectionType.KUKU, true, q, "prediabet"⟩ := by
  have h2 : (2⁻¹ : ℚ) ≤ q := by rwa [← one_div]
  simp [interpret_kuku, h2, not_lt.mpr h2]

/-- Claim C1: the two scorers apply opposite polarity at the identical 0.5
cutoff.  For every raw model score, the tongue scorer is positive with label
"prediabet" iff the score is strictly below 1/2, the nail scorer is positive
with label "prediabet" iff the score is at least 1/2, and at a raw score of
exactly 1/2 the tongue scorer answers "non_diabet" while the nail scorer
answers "prediabet". -/
theorem scorer_polarity_at_half (q : ℚ) :
    ((interpret_lidah q).is_diabetic = true ↔ q < 1/2) ∧
    ((interpret_lidah q).label = "prediabet" ↔ q < 1/2) ∧
    ((interpret_kuku q).is_diabetic = true ↔ 1/2 ≤ q) ∧
    ((interpret_kuku q).label = "prediabet" ↔ 1/2 ≤ q) ∧
    (interpret_lidah (1/2)).label = "non_diabet" ∧
    (interpret_kuku (1/2)).label = "prediabet" := by
  have hhalf : ((1:ℚ)/2) ≤ 1/2 := le_refl _
  rw [interpret_lidah_of_le (1/2) hhalf, interpret_kuku_of_le (1/2) hhalf]
  rcases lt_or_le q (1/2) with h | h
  · rw [interpret_lidah_of_lt q h, interpret_kuku_of_lt q h]
    exact ⟨by simpa using h, by simpa using h,
      by simpa using not_le.mpr h, by simpa using not_le.mpr h, rfl, rfl⟩
  · rw [interpret_lidah_of_le q h, interpret_kuku_of_le q h]
    exact ⟨by simpa using not_lt.mpr h, by simpa using not_lt.mpr h,
      by simpa using h, by simpa using h, rfl, rfl⟩

/-- Claim C3: for every raw score in `[0,1]`, the tongue scorer reports
confidence `1 - raw` when positive and `raw` when negative, the nail scorer
reports `raw` when positive and `1 - raw` when negative, the reported
confidence always lies in `[0,1]`, and the label is exactly one of
"prediabet" and "non_diabet". -/
theorem scorer_confidence_and_label (q : ℚ) (h0 : 0 ≤ q) (h1 : q ≤ 1) :
    ((interpret_lidah q).is_diabetic = true → (interpret_lidah q).confidence = 1 - q) ∧
    ((interpret_lidah q).is_diabetic = false → (interpret_lidah q).confidence = q) ∧
    ((interpret_kuku q).is_diabetic = true → (interpret_kuku q).confidence = q) ∧
    ((interpret_kuku q).is_diabetic = false → (interpret_kuku q).confidence = 1 - q) ∧
    (0 ≤ (interpret_lidah q).confidence ∧ (interpret_lidah q).confidence ≤ 1) ∧
    (0 ≤ (interpret_kuku q).confidence ∧ (interpret_kuku q).confidence ≤ 1) ∧
    ((interpret_lidah q).label = "prediabet" ∨ (interpret_lidah q).label = "non_diabet") ∧
    ((interpret_kuku q).label = "prediabet" ∨ (interpret_kuku q).label = "non_diabet") := by
  rcases lt_or_le q (1/2) with h | h
  · rw [interpret_lidah_of_lt q h, interpret_kuku_of_lt q h]
    exact ⟨fun _ => rfl, by simp, by simp, fun _ => rfl,
      ⟨by simp; linarith, by simp; linarith⟩, ⟨by simp; linarith, by simp; linarith⟩,
      Or.inl rfl, Or.inr rfl⟩
  · rw [interpret_lidah_of_le q h, interpret_kuku_of_le q h]
    exact ⟨by simp, fun _ => rfl, fun _ => rfl, by simp,
      ⟨by simp; linarith, by simp; linarith⟩, ⟨by simp; linarith, by simp; linarith⟩,
      Or.inr rfl, Or.inl rfl⟩

/-- Witness for claim C3 at the concrete raw score 1/4. -/
theorem scorer_confidence_and_label_witness :
    (0:ℚ) ≤ 1/4 ∧ (1/4:ℚ) ≤ 1 ∧ (0 ≤ (interpret_lidah (1/4)).confidence ∧
      (interpret_lidah (1/4)).confidence ≤ 1) :=
  ⟨by norm_num, by norm_num,
    (scorer_confidence_and_label (1/4) (by norm_num) (by norm_num)).2.2.2.2.1⟩

/-- Claim C10: for every raw score in `[0,1]`, the confidence reported by
either scorer lies in `[1/2, 1]`: each scorer reports the winning side of the
0.5 cutoff. -/
theorem scorer_confidence_at_least_half (q : ℚ) (h0 : 0 ≤ q) (h1 : q ≤ 1) :
    (1/2 ≤ (interpret_lidah q).confidence ∧ (interpret_lidah q).confidence ≤ 1) ∧
    (1/2 ≤ (interpret_kuku q).confidence ∧ (interpret_kuku q).confidence ≤ 1) := by
  rcases lt_or_le q (1/2) with h | h
  · rw [interpret_lidah_of_lt q h, interpret_kuku_of_lt q h]
    exact ⟨⟨by simp; linarith, by simp; linarith⟩, ⟨by simp; linarith, by simp; linarith⟩⟩
  · rw [interpret_lidah_of_le q h, interpret_kuku_of_le q h]
    exact ⟨⟨by simp; linarith, by simp; linarith⟩, ⟨by simp; linarith, by simp; linarith⟩⟩

/-- Witness for claim C10 at the concrete raw score 3/4. -/
theorem scorer_confidence_at_least_half_witness :
    (0:ℚ) ≤ 3/4 ∧ (3/4:ℚ) ≤ 1 ∧
      ((1/2 ≤ (interpret_lidah (3/4)).confidence ∧ (interpret_lidah (3/4)).confidence ≤ 1) ∧
       (1/2 ≤ (interpret_kuku (3/4)).confidence ∧ (interpret_kuku (3/4)).confidence ≤ 1)) :=
  ⟨by norm_num, by norm_num, scorer_confidence_at_least_half (3/4) (by norm_num) (by norm_num)⟩

/-- Claim C2: for every pair of positivity booleans and every draw `u` of the
unit-interval random source, `calculate_risk_level` returns tier tinggi
(High) with percentage in `[75,95]` when both are true, sedang (Moderate)
with percentage in `[45,70]` when exactly one is true, and rendah (Low) with
percentage in `[5,25]` when both are false. -/
theorem calculate_risk_level_bands (l k : Bool) (u : ℚ) (h0 : 0 ≤ u) (h1 : u ≤ 1) :
    (l = true → k = true →
      (calculate_risk_level l k u).1 = RiskLevel.TINGGI ∧
      75 ≤ (calculate_risk_level l k u).2 ∧ (calculate_risk_level l k u).2 ≤ 95) ∧
    ((l && k) = false → (l || k) = true →
      (calculate_risk_level l k u).1 = RiskLevel.SEDANG ∧
      45 ≤ (calculate_risk_level l k u).2 ∧ (calculate_risk_level l k u).2 ≤ 70) ∧
    (l = false → k = false →
      (calculate_risk_level l k u).1 = RiskLevel.RENDAH ∧
      5 ≤ (calculate_risk_level l k u).2 ∧ (calculate_risk_level l k u).2 ≤ 25) := by
  cases l <;> cases k <;>
    simp [calculate_risk_level, uniform] <;> constructor <;> nlinarith

/-- Witness for claim C2 with both modalities positive and draw 1/2. -/
theorem calculate_risk_level_bands_witness :
    (0:ℚ) ≤ 1/2 ∧ (1/2:ℚ) ≤ 1 ∧
      ((calculate_risk_level true true (1/2)).1 = RiskLevel.TINGGI ∧
        75 ≤ (calculate_risk_level true true (1/2)).2 ∧
        (calculate_risk_level true true (1/2)).2 ≤ 95) :=
  ⟨by norm_num, by norm_num,
    (calculate_risk_level_bands true true (1/2) (by norm_num) (by norm_num)).1 rfl rfl⟩

/-- Claim C6: an absent (None) modality verdict is mapped to the boolean
false by the orchestrator (`verdict_bool`), so for every value of the other
modality's boolean, every random draw and every sampler, risk aggregation and
factor selection with one modality absent coincide with the same call with
that modality false; in particular omitting an image never yields a higher
risk tier than supplying it with a negative verdict. -/
theorem absent_modality_acts_as_negative (k : Bool) (u : ℚ)
    (sample : List String → Nat → List String) :
    ((calculate_risk_level (verdict_bool none) k u).1 =
      (calculate_risk_level false k u).1) ∧
    ((calculate_risk_level k (verdict_bool none) u).1 =
      (calculate_risk_level k false u).1) ∧
    (get_risk_factors sample (verdict_bool none) k = get_risk_factors sample false k) ∧
    (get_risk_factors sample k (verdict_bool none) = get_risk_factors sample k false) :=
  ⟨rfl, rfl, rfl, rfl⟩

/-- Claim C7: with both modalities negative, `get_risk_factors` returns the
fixed 3-item all-clear list verbatim, for every sampler, i.e. with no
dependence on the random source. -/
theorem all_clear_factors_deterministic (sample : List String → Nat → List String) :
    get_risk_factors sample false false =
      ["No significant abnormalities detected",
       "Normal appearance observed",
       "Healthy indicators present"] := rfl

/-- Claim C4: for every one of the 4 boolean input combinations and every
sampler that honours the `random.sample` contract (drawing `k` elements
whenever `k` does not exceed the population size), `get_risk_factors` returns
a list of exactly 3 strings. -/
theorem get_risk_factors_length_three
    (sample : List String → Nat → List String)
    (hlen : ∀ l k, k ≤ l.length → (sample l k).length = k)
    (lidah_diabetic kuku_diabetic : Bool) :
    (get_risk_factors sample lidah_diabetic kuku_diabetic).length = 3 := by
  cases lidah_diabetic <;> cases kuku_diabetic <;>
    simp [get_risk_factors, candidate_factors, LIDAH_RISK_FACTORS_diabet,
      KUKU_RISK_FACTORS_prediabet, ALL_CLEAR_FACTORS, List.length_take] <;>
    rw [hlen _ 3 (by simp)]

/-- Witness for claim C4 with the take-a-prefix sampler and both modalities
positive. -/
theorem get_risk_factors_length_three_witness :
    (∀ l : List String, ∀ k, k ≤ l.length → (l.take k).length = k) ∧
      (get_risk_factors (fun l k => l.take k) true true).length = 3 :=
  ⟨fun l k h => by simp [List.length_take, Nat.min_eq_left h],
    get_risk_factors_length_three (fun l k => l.take k)
      (fun l k h => by simp [List.length_take, Nat.min_eq_left h]) true true⟩

/-- Claim C9: the tongue pool has exactly 6 phrases and the nail pool exactly
9, so the combined candidate count is always 0, 6, 9 or 15; hence the
"fewer than 3 candidates" padding branch of `get_risk_factors` is never
taken, and for every sampler that draws from its population the
general/monitoring phrases never appear in a returned factor list. -/
theorem general_padding_unreachable
    (sample : List String → Nat → List String)
    (hsub : ∀ l k x, x ∈ sample l k → x ∈ l)
    (lidah_diabetic kuku_diabetic : Bool) :
    LIDAH_RISK_FACTORS_diabet.length = 6 ∧
    KUKU_RISK_FACTORS_prediabet.length = 9 ∧
    ((candidate_factors lidah_diabetic kuku_diabetic).length = 0 ∨
     (candidate_factors lidah_diabetic kuku_diabetic).length = 6 ∨
     (candidate_factors lidah_diabetic kuku_diabetic).length = 9 ∨
     (candidate_factors lidah_diabetic kuku_diabetic).length = 15) ∧
    (∀ s ∈ get_risk_factors sample lidah_diabetic kuku_diabetic,
      s ∉ GENERAL_FACTORS) := by
  refine ⟨rfl, rfl, ?_, ?_⟩
  · cases lidah_diabetic <;> cases kuku_diabetic <;>
      simp [candidate_factors, LIDAH_RISK_FACTORS_diabet, KUKU_RISK_FACTORS_prediabet]
  · intro s hs hg
    have hmem : s ∈ candidate_factors lidah_diabetic kuku_diabetic ∨ s ∈ ALL_CLEAR_FACTORS := by
      cases lidah_diabetic <;> cases kuku_diabetic <;>
        simp only [get_risk_factors, candidate_factors] at hs
      · exact Or.inr (by simpa using hs)
      · exact Or.inl (hsub _ _ _ (List.take_subset _ _ (by simpa using hs)))
      · exact Or.inl (hsub _ _ _ (List.take_subset _ _ (by simpa using hs)))
      · exact Or.inl (hsub _ _ _ (List.take_subset _ _ (by simpa using hs)))
    simp [GENERAL_FACTORS] at hg
    rcases hg with hg | hg | hg <;> subst hg <;>
      rcases hmem with hm | hm <;>
        cases lidah_diabetic <;> cases kuku_diabetic <;>
          simp [candidate_factors, LIDAH_RISK_FACTORS_diabet,
            KUKU_RISK_FACTORS_prediabet, ALL_CLEAR_FACTORS] at hm

/-- Witness for claim C9 with the take-a-prefix sampler and only the tongue
modality positive. -/
theorem general_padding_unreachable_witness :
    (∀ l : List String, ∀ k, ∀ x, x ∈ l.take k → x ∈ l) ∧
      (∀ s ∈ get_risk_factors (fun l k => l.take k) true false, s ∉ GENERAL_FACTORS) :=
  ⟨fun l k _ h => List.take_subset k l h,
    (general_padding_unreachable (fun l k => l.take k)
      (fun l k _ h => List.take_subset k l h) true false).2.2.2⟩

/-- Claim C8: `predict_both` treats an empty byte string exactly like an
absent modality: the branch guard is Python truthiness, so no scoring oracle
is consulted (the result is the same for every predictor environment), no
error is raised, and the verdicts are both None. -/
theorem empty_bytes_treated_as_absent (env : PredEnv) :
    predict_both env (some []) (some []) = Except.ok (none, none) := rfl

/-- A raised scorer exception propagates out of the optional-modality step
when the supplied bytes are non-empty. -/
lemma predict_opt_error_of_error
    (p : List Nat → Except PredError SingleDetectionResult)
    (b : List Nat) (e : PredError) (hb : b ≠ []) (hp : p b = Except.error e) :
    predict_opt p (some b) = Except.error e := by
  cases b with
  | nil => exact absurd rfl hb
  | cons x xs => simp [predict_opt, truthy, hp, Except.map]

/-- When the optional-modality step succeeds on supplied non-empty bytes, the
verdict it returns is present. -/
lemma predict_opt_isSome_of_ok
    (p : List Nat → Except PredError SingleDetectionResult)
    (b : List Nat) (r : Option SingleDetectionResult) (hb : b ≠ [])
    (h : predict_opt p (some b) = Except.ok r) : r.isSome = true := by
  cases b with
  | nil => exact absurd rfl hb
  | cons x xs =>
    cases hp : p (x :: xs) with
    | error e => simp [predict_opt, truthy, hp, Except.map] at h
    | ok v =>
      simp [predict_opt, truthy, hp, Except.map] at h
      simp [← h]

/-- Claim C5 as amended: for every request in which a modality's image is
supplied as a NON-EMPTY byte string, a failure to normalize or score that
modality aborts the request with HTTP 500, and a request that succeeds never
carries an absent verdict for such a modality (no partial best-effort
response); a supplied empty byte string is instead treated as an absent
modality, which is what forces the amendment (see
`empty_bytes_silently_dropped`). -/
theorem supplied_modality_failure_aborts (env : PredEnv)
    (sample : List String → Nat → List String) (u : ℚ)
    (lidah_image kuku_image : Option (List Nat)) :
    (∀ b e, lidah_image = some b → b ≠ [] → env.lidahScore b = Except.error e →
      predict_flexible env sample u lidah_image kuku_image =
        Except.error HTTPError.internalError) ∧
    (∀ b e, kuku_image = some b → b ≠ [] → env.kukuScore b = Except.error e →
      predict_flexible env sample u lidah_image kuku_image =
        Except.error HTTPError.internalError) ∧
    (∀ resp, predict_flexible env sample u lidah_image kuku_image = Except.ok resp →
      (∀ b, lidah_image = some b → b ≠ [] → resp.lidah_result.isSome = true) ∧
      (∀ b, kuku_image = some b → b ≠ [] → resp.kuku_result.isSome = true)) := by
  refine ⟨?_, ?_, ?_⟩
  · intro b e hlb hb herr
    subst hlb
    have hopt : predict_opt (predict_lidah env) (some b) = Except.error e :=
      predict_opt_error_of_error _ b e hb (by simp [predict_lidah, herr])
    simp [predict_flexible, predict_both, hopt]
  · intro b e hkb hb herr
    subst hkb
    have hopt : predict_opt (predict_kuku env) (some b) = Except.error e :=
      predict_opt_error_of_error _ b e hb (by simp [predict_kuku, herr])
    cases hl : predict_opt (predict_lidah env) lidah_image with
    | error e2 => simp [predict_flexible, predict_both, hl]
    | ok lr => simp [predict_flexible, predict_both, hl, hopt]
  · intro resp hok
    by_cases hno : lidah_image = none ∧ kuku_image = none
    · simp [predict_flexible, hno] at hok
    · simp only [predict_flexible, if_neg hno] at hok
      cases hl : predict_opt (predict_lidah env) lidah_image with
      | error e2 => simp [predict_both, hl] at hok
      | ok lr =>
        cases hk : predict_opt (predict_kuku env) kuku_image with
        | error e2 => simp [predict_both, hl, hk] at hok
        | ok kr =>
          simp [predict_both, hl, hk] at hok
          constructor
          · intro b hlb hb
            subst hlb
            have hsome := predict_opt_isSome_of_ok _ b lr hb hl
            rw [← hok]
            simpa using hsome
          · intro b hkb hb
            subst hkb
            have hsome := predict_opt_isSome_of_ok _ b kr hb hk
            rw [← hok]
            simpa using hsome

/-- Witness for the amended claim C5: against a predictor whose preprocessing
fails on every input, a request supplying the non-empty tongue image `[1]` is
aborted with HTTP 500. -/
theorem supplied_modality_failure_aborts_witness :
    predict_flexible failEnv (fun l k => l.take k) 0 (some [1]) none =
      Except.error HTTPError.internalError :=
  (supplied_modality_failure_aborts failEnv (fun l k => l.take k) 0 (some [1]) none).1
    [1] PredError.decodeError rfl (by simp) rfl

/-- Counterexample to claim C5 as stated: the empty byte string is a supplied
(non-None) modality argument, and even against a predictor whose
normalization fails on every input the request is not aborted: `predict_both`
silently substitutes the absent verdict None for the supplied modality, and
the request completes with a full low-risk response. -/
theorem empty_bytes_silently_dropped :
    (some ([] : List Nat)) ≠ none ∧
      predict_both failEnv (some []) none = Except.ok (none, none) ∧
      predict_flexible failEnv (fun l k => l.take k) 0 (some []) none =
        Except.ok
          ⟨RiskLevel.RENDAH, uniform 5 25 0, none, none,
            ALL_CLEAR_FACTORS, get_recommendation RiskLevel.RENDAH⟩ := by
  refine ⟨by simp, rfl, ?_⟩
  simp [predict_flexible, predict_both, predict_opt, truthy, verdict_bool,
    calculate_risk_level, get_risk_factors, candidate_factors, ALL_CLEAR_FACTORS]
